import Mathlib

/-!
Verification development for the ET-Heatmap core: a shallow embedding of the
trend-gate state machine, debounce/suppression filters, alert dispatch,
signal/score/entity persistence helpers and the circuit breaker, translated
from `src/flows/actionable_alerts.py`, `src/libs/db.py`,
`src/flows/scoring_job.py`, `src/flows/rescore_tiktok.py`,
`src/libs/scoring_tiktok.py` and `src/libs/health.py`.

Numeric values (Python floats) are modelled as exact rationals; timestamps
are rationals counting seconds.  SQL `NULL` is `Option.none`.
-/

namespace ETHeatmap

/-! ### Configuration constants (defaults of the env overrides),
    from `src/flows/actionable_alerts.py` lines 24-29. -/

def VEL_GATE : ℚ := 5/2

def SPREAD_GATE : ℚ := 2/3

def PERSIST_POLLS : ℤ := 2

def DEBOUNCE_HOURS : ℚ := 6

def REBOOST_FACTOR : ℚ := 13/10

def TRADE_SUPPRESS_AFTER_HOURS : ℚ := 24

/-! ### TrendState rows (`trend_state` table, one row per entity). -/

structure TrendState where
  last_gate_pass_ts : Option ℚ
  consecutive_passes : ℤ
  last_alert_ts : Option ℚ
  last_alert_heat : Option ℚ
  prior_peak_heat : Option ℚ
deriving Repr, DecidableEq

/-- Gate test of `find_eligible_alerts` (line 100):
`(vel or 0) >= VEL_GATE and (spread or 0) >= SPREAD_GATE`; a SQL NULL
component is treated as 0. -/
def passes_gate (vel spread : Option ℚ) : Bool :=
  decide (VEL_GATE ≤ vel.getD 0) && decide (SPREAD_GATE ≤ spread.getD 0)

/-- `_update_trend_state` (lines 68-89): takes the entity's current
`trend_state` row (`none` when the entity has no row yet), the poll
timestamp and the gate outcome; returns the updated row together with the
value the SQL `RETURNING consecutive_passes` (or the hard-coded 0 of the
failing branch) hands back to the caller. -/
def update_trend_state (st : Option TrendState) (ts : ℚ) (pg : Bool) :
    TrendState × ℤ :=
  if pg then
    match st with
    | none => (⟨some ts, 1, none, none, none⟩, 1)
    | some s =>
        let c : ℤ :=
          match s.last_gate_pass_ts with
          | some t => if t < ts then s.consecutive_passes + 1 else 1
          | none => 1
        (⟨some ts, c, s.last_alert_ts, s.last_alert_heat, s.prior_peak_heat⟩, c)
  else
    match st with
    | none => (⟨none, 0, none, none, none⟩, 0)
    | some s => ({ s with consecutive_passes := 0 }, 0)

/-- The `CASE WHEN` condition of the upsert: the stored `last_gate_pass_ts`
is non-NULL and the new timestamp is strictly later. -/
def strictly_later (stored : Option ℚ) (ts : ℚ) : Bool :=
  match stored with
  | some t => decide (t < ts)
  | none => false

/-- Candidate test of `find_eligible_alerts` (line 102):
`consec >= PERSIST_POLLS and passes_gate`. -/
def alert_candidate (consec : ℤ) (pg : Bool) : Bool :=
  decide (PERSIST_POLLS ≤ consec) && pg

/-- Three passing polls applied to a fresh entity (no `trend_state` row):
the returned `consecutive_passes` of each poll. -/
def gate_scenario (t1 t2 t3 : ℚ) : ℤ × ℤ × ℤ :=
  let r1 := update_trend_state none t1 true
  let r2 := update_trend_state (some r1.1) t2 true
  let r3 := update_trend_state (some r2.1) t3 true
  (r1.2, r2.2, r3.2)

/-! ### Debounce and trade-mention suppression (`_blocked_alert`, lines 32-48). -/

/-- Debounce half of `_blocked_alert` (lines 38-41): blocks when a previous
alert timestamp exists, lies strictly inside the debounce window, and the
stored `last_alert_heat` is NULL or the current heat is strictly below
`last_alert_heat * REBOOST_FACTOR`. -/
def debounce_blocked (now : ℚ) (last_ts last_heat : Option ℚ) (heat : ℚ) : Bool :=
  match last_ts with
  | none => false
  | some t =>
      if now - t < DEBOUNCE_HOURS * 3600 then
        match last_heat with
        | none => true
        | some lh => decide (heat < lh * REBOOST_FACTOR)
      else false

/-- Trade-mention half of `_blocked_alert` (lines 43-47): blocks when an
earliest trade mention exists, is older than `TRADE_SUPPRESS_AFTER_HOURS`,
and the current heat is strictly below the recorded prior peak. -/
def trade_blocked (now : ℚ) (trade_min : Option ℚ) (prior_peak heat : ℚ) : Bool :=
  match trade_min with
  | none => false
  | some tm =>
      decide (TRADE_SUPPRESS_AFTER_HOURS < (now - tm) / 3600) && decide (heat < prior_peak)

/-- `_blocked_alert` (lines 32-48): the early `return True` of the debounce
check followed by the trade check is their disjunction.  `st` is the
entity's `trend_state` row; a missing row or NULL `prior_peak_heat` yields
peak 0. -/
def blocked_alert (now : ℚ) (st : Option TrendState) (trade_min : Option ℚ)
    (heat : ℚ) : Bool :=
  debounce_blocked now (st.bind TrendState.last_alert_ts)
      (st.bind TrendState.last_alert_heat) heat
    || trade_blocked now trade_min ((st.bind TrendState.prior_peak_heat).getD 0) heat

/-! ### Alert dispatch (`post_alerts`, lines 135-173).

`post_alerts` opens one `httpx` client and ONE database transaction
(`engine.begin()`) around the whole batch.  Per admitted row it computes the
lead time from the entity's earliest trade mention, executes the `alerts`
INSERT and the `trend_state` last-alert UPDATE inside that transaction, then
posts to the Slack webhook.  An exception raised by the webhook post (or by
a statement) aborts the transaction: every database effect of the batch is
rolled back while the webhook posts already made remain delivered.  We model
the transaction by threading the tentative database next to the snapshot
`db0` taken at `engine.begin()`, and the webhook outcome per row index by
`deliver_ok` (`false` = the post raises). -/

structure AlertRow where
  entity_id : ℤ
  alert_ts : ℚ
  heat : ℚ
  pre_trade : Bool
  lead_time_minutes : Option ℤ
deriving Repr, DecidableEq

structure AlertDB where
  alerts : List AlertRow
  trend : List (ℤ × TrendState)
deriving Repr, DecidableEq

/-- The `UPDATE trend_state SET last_alert_ts=:ts, last_alert_heat=:heat,
prior_peak_heat=GREATEST(COALESCE(prior_peak_heat,0), :heat) WHERE
entity_id=:id` of line 165: touches only an existing row. -/
def set_last_alert (trend : List (ℤ × TrendState)) (eid : ℤ) (ts heat : ℚ) :
    List (ℤ × TrendState) :=
  trend.map (fun p =>
    if p.1 = eid then
      (p.1, { p.2 with
        last_alert_ts := some ts
        last_alert_heat := some heat
        prior_peak_heat := some (max ((p.2.prior_peak_heat).getD 0) heat) })
    else p)

/-- Lines 142-167 for a single row: lead-time computation, the `alerts`
INSERT and the `trend_state` UPDATE, applied to the tentative database.
`trade_min eid` is `MIN(first_seen_ts)` over the entity's trade mentions.
Python's `int(x // 60)` on seconds is the floor of `x / 60`. -/
def persist_alert (trade_min : ℤ → Option ℚ) (now : ℚ) (db : AlertDB)
    (eid : ℤ) (heat : ℚ) : AlertDB :=
  let row : AlertRow :=
    match trade_min eid with
    | none => ⟨eid, now, heat, true, none⟩
    | some tm => ⟨eid, now, heat, false, some ⌊(now - tm) / 60⌋⟩
  ⟨db.alerts ++ [row], set_last_alert db.trend eid now heat⟩

/-- The per-row loop of `post_alerts`: returns the committed database, the
list of entities whose webhook post went out, and the `sent` counter.  A
raising post (`deliver_ok k = false`) aborts the transaction: the database
reverts to the snapshot `db0`, the earlier posts stay out. -/
def post_alerts_go (trade_min : ℤ → Option ℚ) (now : ℚ) (deliver_ok : ℕ → Bool)
    (db0 db : AlertDB) (k : ℕ) (pushes : List ℤ) :
    List (ℤ × ℚ) → AlertDB × List ℤ × ℕ
  | [] => (db, pushes, pushes.length)
  | (eid, heat) :: rest =>
      let db1 := persist_alert trade_min now db eid heat
      if deliver_ok k then
        post_alerts_go trade_min now deliver_ok db0 db1 (k + 1) (pushes ++ [eid]) rest
      else (db0, pushes, pushes.length)

/-- `post_alerts` (lines 135-173).  `webhook_set = false` models an empty
`SLACK_WEBHOOK_URL`: the function returns 0 without touching the database. -/
def post_alerts (webhook_set : Bool) (trade_min : ℤ → Option ℚ) (now : ℚ)
    (deliver_ok : ℕ → Bool) (db0 : AlertDB) (rows : List (ℤ × ℚ)) :
    AlertDB × List ℤ × ℕ :=
  if webhook_set then post_alerts_go trade_min now deliver_ok db0 db0 0 [] rows
  else (db0, [], 0)

/-! ### Signal store (`insert_signal`, `src/libs/db.py` lines 34-39). -/

structure SignalRow where
  entity_id : ℤ
  source : String
  metric : String
  ts : ℚ
  value : ℚ
deriving Repr, DecidableEq

/-- Modelled from the spec: the `signals` table's unique key — the DDL is not
under `src/`; the spec fixes `(entity_id, source, metric, ts)` as "a natural
idempotency key". -/
def signal_key (r : SignalRow) : ℤ × String × String × ℚ :=
  (r.entity_id, r.source, r.metric, r.ts)

/-- `insert_signal`: `INSERT ... ON CONFLICT DO NOTHING` over the unique
key; a conflicting insert leaves the table unchanged and raises nothing. -/
def insert_signal (db : List SignalRow) (r : SignalRow) : List SignalRow :=
  if db.any (fun x => decide (signal_key x = signal_key r)) then db
  else db ++ [r]

/-! ### Score store (`persist_score` of `src/flows/scoring_job.py` lines
71-97 and the INSERT of `src/flows/rescore_tiktok.py` lines 102-105). -/

structure ScoreRow where
  entity_id : ℤ
  ts : ℚ
  velocity_z : ℚ
  accel : ℚ
  xplat : ℚ
  novelty : ℚ
  et_fit : ℚ
  tentpole : ℚ
  decay : ℚ
  risk : ℚ
  heat : ℚ
deriving Repr, DecidableEq

def score_key (r : ScoreRow) : ℤ × ℚ := (r.entity_id, r.ts)

/-- `persist_score`: `INSERT ... ON CONFLICT (entity_id, ts) DO UPDATE SET`
every component column to the excluded row's value — on a key collision the
stored row's components are overwritten in place. -/
def persist_score (db : List ScoreRow) (r : ScoreRow) : List ScoreRow :=
  if db.any (fun x => decide (score_key x = score_key r)) then
    db.map (fun x => if score_key x = score_key r then r else x)
  else db ++ [r]

/-- The plain `INSERT INTO scores` of `rescore_entities_with_tiktok`
(lines 102-105): always appends a row at the fresh timestamp `now`. -/
def rescore_insert_score (db : List ScoreRow) (r : ScoreRow) : List ScoreRow :=
  db ++ [r]

/-! ### Entity store (`upsert_entity`, `src/libs/db.py` lines 24-32). -/

structure EntityRow where
  name : String
  etype : String
  category : Option String
  aliases : List String
  wiki_id : Option String
deriving Repr, DecidableEq

/-- `upsert_entity`: `INSERT ... ON CONFLICT (name) DO UPDATE SET
aliases = EXCLUDED.aliases, category = COALESCE(EXCLUDED.category,
entities.category)` — on a name collision the stored aliases are replaced
by the supplied list, the category falls back to the stored one, and `type`
and `wiki_id` are left untouched. -/
def upsert_entity (db : List EntityRow) (name etype : String)
    (aliases : List String) (wiki_id category : Option String) : List EntityRow :=
  if db.any (fun e => e.name == name) then
    db.map (fun e =>
      if e.name == name then
        { e with aliases := aliases, category := category.orElse (fun _ => e.category) }
      else e)
  else db ++ [⟨name, etype, category, aliases, wiki_id⟩]

/-! ### TikTok platform fold (`tiktok_component`,
`src/libs/scoring_tiktok.py` lines 14-57).  The six `_z` sub-source scores
and the latest `hits_24h` / `unique_authors_24h` values are the inputs; the
combination of lines 30-45 is embedded verbatim (`np.clip(raw, -3, 3)` is
`min (max raw (-3)) 3`). -/

def clip (x lo hi : ℚ) : ℚ := min (max x lo) hi

def tiktok_component (z_cc_tag z_cc_mom z_hits z_auth z_vvel z_eng
    latest_hits latest_auth : ℚ) : ℚ :=
  let spam_pen0 := max 0 (latest_hits - 2 * latest_auth)
  let spam_pen := min spam_pen0 5
  let raw := (30/100 : ℚ) * z_cc_tag + (15/100 : ℚ) * z_cc_mom
    + (15/100 : ℚ) * z_hits + (20/100 : ℚ) * z_auth + (15/100 : ℚ) * z_vvel
    + (10/100 : ℚ) * z_eng - (25/100 : ℚ) * (spam_pen / 5)
  clip raw (-3) 3

/-- The claim's literal formula: the spam penalty `max(0, hits − 2×authors)`
capped at 5 and scaled by 0.25 (no /5 normalization), subtracted from the
weighted sum, the result clamped to [-3, 3]. -/
def tiktok_component_claim (z_cc_tag z_cc_mom z_hits z_auth z_vvel z_eng
    latest_hits latest_auth : ℚ) : ℚ :=
  let pen := (25/100 : ℚ) * min (max 0 (latest_hits - 2 * latest_auth)) 5
  clip ((30/100 : ℚ) * z_cc_tag + (15/100 : ℚ) * z_cc_mom
    + (15/100 : ℚ) * z_hits + (20/100 : ℚ) * z_auth + (15/100 : ℚ) * z_vvel
    + (10/100 : ℚ) * z_eng - pen) (-3) 3

/-! ### Circuit breaker (`is_circuit_open`, `src/libs/health.py` lines
51-59).  The health-store query is a value of `Except Unit (Option (Option
ℚ))`: `error` = the query raised, `ok none` = no `source_health` row,
`ok (some none)` = a row whose `circuit_open_until` is NULL (the only falsy
non-NULL value a timestamp column cannot take), `ok (some (some t))` = a
stored open-until timestamp. -/

def is_circuit_open (now : ℚ) (q : Except Unit (Option (Option ℚ))) : Bool :=
  match q with
  | Except.error _ => false
  | Except.ok none => false
  | Except.ok (some none) => false
  | Except.ok (some (some t)) => decide (now < t)

/-! ## Theorems -/

/-- C1: on each scoring evaluation, a failing gate resets
`consecutive_passes` to 0 unconditionally; a passing gate increments it by
exactly 1 when the poll timestamp is strictly later than the stored
`last_gate_pass_ts` and otherwise sets it to 1; the entity is an alert
candidate exactly when the gate passes and the post-update count is ≥ 2;
three passing polls with strictly increasing timestamps yield the sequence
1, 2, 3 with eligibility first true at poll 2. -/
theorem C1_trend_gate
    (st : Option TrendState) (s : TrendState) (ts : ℚ) (c : ℤ) (pg : Bool)
    (t1 t2 t3 : ℚ) (h12 : t1 < t2) (h23 : t2 < t3) :
    ((update_trend_state st ts false).1.consecutive_passes = 0
      ∧ (update_trend_state st ts false).2 = 0)
    ∧ ((update_trend_state (some s) ts true).2 =
        if strictly_later s.last_gate_pass_ts ts then s.consecutive_passes + 1 else 1)
    ∧ (update_trend_state none ts true).2 = 1
    ∧ (alert_candidate c pg = true ↔ 2 ≤ c ∧ pg = true)
    ∧ gate_scenario t1 t2 t3 = (1, 2, 3)
    ∧ alert_candidate (gate_scenario t1 t2 t3).1 true = false
    ∧ alert_candidate (gate_scenario t1 t2 t3).2.1 true = true
    ∧ alert_candidate (gate_scenario t1 t2 t3).2.2 true = true := by
  have hsc : gate_scenario t1 t2 t3 = (1, 2, 3) := by
    simp [gate_scenario, update_trend_state, h12, h23]
  refine ⟨?_, ?_, ?_, ?_, hsc, ?_, ?_, ?_⟩
  · cases st <;> simp [update_trend_state]
  · rcases hs : s.last_gate_pass_ts with _ | t
    · simp [update_trend_state, strictly_later, hs]
    · by_cases h : t < ts <;> simp [update_trend_state, strictly_later, hs, h]
  · simp [update_trend_state]
  · simp [alert_candidate, PERSIST_POLLS]
  · rw [hsc]; decide
  · rw [hsc]; decide
  · rw [hsc]; decide

/-- Witness for C1 at a concrete state and timestamps 0 < 1 < 2. -/
theorem C1_trend_gate_witness :
    ((0:ℚ) < 1 ∧ (1:ℚ) < 2)
    ∧ (((update_trend_state (some ⟨some 0, 3, none, none, none⟩) 1 false).1.consecutive_passes = 0
        ∧ (update_trend_state (some ⟨some 0, 3, none, none, none⟩) 1 false).2 = 0)
      ∧ ((update_trend_state (some ⟨some 0, 3, none, none, none⟩) 1 true).2 =
          if strictly_later (some 0) 1 then 3 + 1 else 1)
      ∧ (update_trend_state none (1:ℚ) true).2 = 1
      ∧ (alert_candidate 2 true = true ↔ 2 ≤ (2:ℤ) ∧ true = true)
      ∧ gate_scenario 0 1 2 = (1, 2, 3)
      ∧ alert_candidate (gate_scenario 0 1 2).1 true = false
      ∧ alert_candidate (gate_scenario 0 1 2).2.1 true = true
      ∧ alert_candidate (gate_scenario 0 1 2).2.2 true = true) :=
  ⟨⟨by norm_num, by norm_num⟩,
   C1_trend_gate (some ⟨some 0, 3, none, none, none⟩) ⟨some 0, 3, none, none, none⟩
     1 2 true 0 1 2 (by norm_num) (by norm_num)⟩

/-- C2: a candidate with a prior alert strictly inside the debounce window
and a recorded `last_alert_heat` is suppressed by debounce iff its heat is
strictly below `last_alert_heat * REBOOST_FACTOR`; at or above that level it
is not suppressed, and a candidate with no prior alert, or one outside the
window, is never suppressed by debounce. -/
theorem C2_debounce (now t lh heat heat2 t2 lh2 h3 : ℚ) (lho : Option ℚ)
    (hrecent : now - t < DEBOUNCE_HOURS * 3600)
    (hbig : lh * REBOOST_FACTOR ≤ heat2)
    (hold : ¬ (now - t2 < DEBOUNCE_HOURS * 3600)) :
    (debounce_blocked now (some t) (some lh) heat = true ↔ heat < lh * REBOOST_FACTOR)
    ∧ debounce_blocked now (some t) (some lh) heat2 = false
    ∧ debounce_blocked now none lho h3 = false
    ∧ debounce_blocked now (some t2) (some lh2) h3 = false := by
  refine ⟨?_, ?_, ?_, ?_⟩
  · simp [debounce_blocked, hrecent]
  · have hnl : ¬ heat2 < lh * REBOOST_FACTOR := not_lt.mpr hbig
    simp [debounce_blocked, hrecent, hnl]
  · simp [debounce_blocked]
  · simp [debounce_blocked, hold]

/-- Witness for C2: the spec's example, alert at heat 10 one hour ago;
heat 11 < 13 is suppressed, heat 14 ≥ 13 is not. -/
theorem C2_debounce_witness :
    ((3600:ℚ) - 0 < DEBOUNCE_HOURS * 3600
      ∧ (10:ℚ) * REBOOST_FACTOR ≤ 14
      ∧ ¬ ((3600:ℚ) - (-100000) < DEBOUNCE_HOURS * 3600))
    ∧ ((debounce_blocked 3600 (some 0) (some 10) 11 = true ↔ (11:ℚ) < 10 * REBOOST_FACTOR)
      ∧ debounce_blocked 3600 (some 0) (some 10) 14 = false
      ∧ debounce_blocked 3600 none (some 5) 999 = false
      ∧ debounce_blocked 3600 (some (-100000)) (some 5) 999 = false) :=
  ⟨⟨by norm_num [DEBOUNCE_HOURS], by norm_num [REBOOST_FACTOR],
    by norm_num [DEBOUNCE_HOURS]⟩,
   C2_debounce 3600 0 10 11 14 (-100000) 5 999 (some 5)
     (by norm_num [DEBOUNCE_HOURS]) (by norm_num [REBOOST_FACTOR])
     (by norm_num [DEBOUNCE_HOURS])⟩

/-- C3: a candidate whose earliest trade mention is strictly more than
`TRADE_SUPPRESS_AFTER_HOURS` old with heat strictly below the recorded
prior peak is blocked regardless of the rest of the trend state; heat at or
above the peak, a mention inside the window, or no mention at all never
triggers trade-mention suppression. -/
theorem C3_trade_suppression (now tm heat pk h2 now2 tm2 pk2 h3 now3 pk3 h4 : ℚ)
    (st : Option TrendState)
    (hage : TRADE_SUPPRESS_AFTER_HOURS < (now - tm) / 3600)
    (hpeak : heat < (st.bind TrendState.prior_peak_heat).getD 0)
    (hge : pk ≤ h2)
    (hyoung : ¬ TRADE_SUPPRESS_AFTER_HOURS < (now2 - tm2) / 3600) :
    blocked_alert now st (some tm) heat = true
    ∧ trade_blocked now (some tm) pk h2 = false
    ∧ trade_blocked now2 (some tm2) pk2 h3 = false
    ∧ trade_blocked now3 none pk3 h4 = false := by
  refine ⟨?_, ?_, ?_, ?_⟩
  · simp [blocked_alert, trade_blocked, hage, hpeak]
  · have hnl : ¬ h2 < pk := not_lt.mpr hge
    simp [trade_blocked, hnl]
  · simp [trade_blocked, hyoung]
  · simp [trade_blocked]

/-- Witness for C3: the spec's example, a trade mention 30 hours old with
heat 1 below peak 5 is suppressed whatever the debounce fields hold;
heat 7 at/above peak 5 is not. -/
theorem C3_trade_suppression_witness :
    (TRADE_SUPPRESS_AFTER_HOURS < ((108000:ℚ) - 0) / 3600
      ∧ (1:ℚ) < 5
      ∧ (5:ℚ) ≤ 7
      ∧ ¬ TRADE_SUPPRESS_AFTER_HOURS < ((3600:ℚ) - 0) / 3600)
    ∧ (blocked_alert 108000 (some ⟨none, 0, none, none, some 5⟩) (some 0) 1 = true
      ∧ trade_blocked 108000 (some 0) 5 7 = false
      ∧ trade_blocked 3600 (some 0) 5 1 = false
      ∧ trade_blocked 0 none 9 1 = false) :=
  ⟨⟨by norm_num [TRADE_SUPPRESS_AFTER_HOURS], by norm_num, by norm_num,
    by norm_num [TRADE_SUPPRESS_AFTER_HOURS]⟩,
   C3_trade_suppression 108000 0 1 5 7 3600 0 5 1 0 9 1
     (some ⟨none, 0, none, none, some 5⟩)
     (by norm_num [TRADE_SUPPRESS_AFTER_HOURS]) (by norm_num) (by norm_num)
     (by norm_num [TRADE_SUPPRESS_AFTER_HOURS])⟩

/-- C9: inside the debounce window a NULL `last_alert_heat` suppresses the
candidate whatever its current heat is — the reboost escape needs a
recorded value. -/
theorem C9_null_last_alert_heat (now t heat : ℚ)
    (hrecent : now - t < DEBOUNCE_HOURS * 3600) :
    debounce_blocked now (some t) none heat = true := by
  simp [debounce_blocked, hrecent]

/-- Witness for C9: alert one hour ago, NULL heat, huge current heat. -/
theorem C9_null_last_alert_heat_witness :
    ((3600:ℚ) - 0 < DEBOUNCE_HOURS * 3600)
    ∧ debounce_blocked 3600 (some 0) none 1000000 = true :=
  ⟨by norm_num [DEBOUNCE_HOURS],
   C9_null_last_alert_heat 3600 0 1000000 (by norm_num [DEBOUNCE_HOURS])⟩

/-- C10: `is_circuit_open` fails open — a missing `source_health` row, a
NULL `circuit_open_until`, and a raising health-store query all yield
`false`; only a stored timestamp strictly after `now` opens the circuit. -/
theorem C10_circuit_fails_open (now t : ℚ) :
    is_circuit_open now (Except.error ()) = false
    ∧ is_circuit_open now (Except.ok none) = false
    ∧ is_circuit_open now (Except.ok (some none)) = false
    ∧ is_circuit_open now (Except.ok (some (some t))) = decide (now < t) :=
  ⟨rfl, rfl, rfl, rfl⟩

/-- C4: `post_alerts` runs the alert INSERT, the trend-state UPDATE and the
webhook post of every admitted row inside one transaction.  Evaluated at the
failing inputs: with a single candidate whose webhook post raises, the
committed record contains NO alert row (the transaction rolls back, the
claim says the alert remains); with two candidates where the first post
succeeds and the second raises, entity 1's push went out yet no alert row
is committed (an un-persisted push, which the claim rules out).  The control
conjunct shows a succeeding post does commit its alert row. -/
theorem C4_delivery_failure_rolls_back :
    (post_alerts true (fun _ => none) 0 (fun _ => false) ⟨[], []⟩ [(1, 10)]).1.alerts = []
    ∧ ((post_alerts true (fun _ => none) 0 (fun k => k == 0) ⟨[], []⟩
          [(1, 10), (2, 9)]).2.1 = [1]
      ∧ (post_alerts true (fun _ => none) 0 (fun k => k == 0) ⟨[], []⟩
          [(1, 10), (2, 9)]).1.alerts = [])
    ∧ (post_alerts true (fun _ => none) 0 (fun _ => true) ⟨[], []⟩ [(1, 10)]).1.alerts
        = [⟨1, 0, 10, true, none⟩] :=
  ⟨rfl, ⟨rfl, rfl⟩, rfl⟩

/-- C5: `insert_signal` is idempotent — inserting one signal twice into a
store holding no row with its key leaves exactly one row with that key, the
second insert being a no-op (and, being a total function, never an error). -/
theorem C5_signal_idempotent (db : List SignalRow) (r : SignalRow)
    (hfresh : db.countP (fun x => decide (signal_key x = signal_key r)) = 0) :
    insert_signal (insert_signal db r) r = insert_signal db r
    ∧ (insert_signal (insert_signal db r) r).countP
        (fun x => decide (signal_key x = signal_key r)) = 1 := by
  have hnone : db.any (fun x => decide (signal_key x = signal_key r)) = false := by
    rw [List.any_eq_false]
    intro x hx
    have hz := List.countP_eq_zero.mp hfresh x hx
    simpa using hz
  have h1 : insert_signal db r = db ++ [r] := by
    simp [insert_signal, hnone]
  have hsome : (db ++ [r]).any (fun x => decide (signal_key x = signal_key r)) = true := by
    rw [List.any_eq_true]
    exact ⟨r, by simp, by simp⟩
  have h2 : insert_signal (db ++ [r]) r = db ++ [r] := by
    simp [insert_signal, hsome]
  refine ⟨by rw [h1, h2], ?_⟩
  rw [h1, h2, List.countP_append]
  simp [hfresh]

/-- Witness for C5 on an empty store and a concrete signal. -/
theorem C5_signal_idempotent_witness :
    (([] : List SignalRow).countP
        (fun x => decide (signal_key x = signal_key ⟨1, "reddit", "score", 0, 2⟩)) = 0)
    ∧ (insert_signal (insert_signal [] ⟨1, "reddit", "score", 0, 2⟩)
          ⟨1, "reddit", "score", 0, 2⟩
        = insert_signal [] ⟨1, "reddit", "score", 0, 2⟩
      ∧ (insert_signal (insert_signal [] ⟨1, "reddit", "score", 0, 2⟩)
            ⟨1, "reddit", "score", 0, 2⟩).countP
          (fun x => decide (signal_key x = signal_key ⟨1, "reddit", "score", 0, 2⟩)) = 1) :=
  ⟨by decide, C5_signal_idempotent [] ⟨1, "reddit", "score", 0, 2⟩ (by decide)⟩

/-- C6 counterexample: `persist_score` at an already-used `(entity_id, ts)`
key overwrites the stored row — the previously written row (heat 1) is gone
from the store, replaced in place by the new components (heat 2), so score
rows are not immutable as the claim states. -/
theorem C6_scores_counterexample :
    persist_score [⟨1, 0, 0, 0, 0, 0, 0, 0, 0, 0, 1⟩] ⟨1, 0, 0, 0, 0, 0, 0, 0, 0, 0, 2⟩
      = [⟨1, 0, 0, 0, 0, 0, 0, 0, 0, 0, 2⟩]
    ∧ (⟨1, 0, 0, 0, 0, 0, 0, 0, 0, 0, 1⟩ : ScoreRow)
        ∉ persist_score [⟨1, 0, 0, 0, 0, 0, 0, 0, 0, 0, 1⟩]
            ⟨1, 0, 0, 0, 0, 0, 0, 0, 0, 0, 2⟩ := by
  exact ⟨by decide, by decide⟩

/-- C6 amended: the TikTok rescoring INSERT always appends a new row and
never removes or changes an existing one, and `persist_score` appends a new
row when no row carries its `(entity_id, ts)` key — but on a key collision
`persist_score` replaces the stored row's components in place (the old row
is no longer in the store). -/
theorem C6_scores_amended (db db2 db3 : List ScoreRow) (r r2 r3 x y : ScoreRow)
    (hfresh : db.countP (fun z => decide (score_key z = score_key r)) = 0)
    (hy : y ∈ db2)
    (hx : x ∈ db3) (hk : score_key x = score_key r3) (hne : x ≠ r3) :
    persist_score db r = db ++ [r]
    ∧ rescore_insert_score db2 r2 = db2 ++ [r2]
    ∧ y ∈ rescore_insert_score db2 r2
    ∧ x ∉ persist_score db3 r3 := by
  have hnone : db.any (fun z => decide (score_key z = score_key r)) = false := by
    rw [List.any_eq_false]
    intro z hz
    have h0 := List.countP_eq_zero.mp hfresh z hz
    simpa using h0
  refine ⟨by simp [persist_score, hnone], rfl, by simp [rescore_insert_score, hy], ?_⟩
  have hany : db3.any (fun z => decide (score_key z = score_key r3)) = true := by
    rw [List.any_eq_true]
    exact ⟨x, hx, by simp [hk]⟩
  simp only [persist_score, hany, if_true]
  intro hmem
  rw [List.mem_map] at hmem
  obtain ⟨z, hz, hzx⟩ := hmem
  by_cases h : score_key z = score_key r3
  · rw [if_pos h] at hzx
    exact hne hzx.symm
  · rw [if_neg h] at hzx
    rw [hzx] at h
    exact h hk

/-- Witness for C6 amended at concrete rows sharing the key `(1, 0)`. -/
theorem C6_scores_amended_witness :
    (([] : List ScoreRow).countP
        (fun z => decide (score_key z = score_key ⟨1, 0, 0, 0, 0, 0, 0, 0, 0, 0, 1⟩)) = 0
      ∧ (⟨1, 0, 0, 0, 0, 0, 0, 0, 0, 0, 1⟩ : ScoreRow) ∈ [⟨1, 0, 0, 0, 0, 0, 0, 0, 0, 0, 1⟩]
      ∧ score_key (⟨1, 0, 0, 0, 0, 0, 0, 0, 0, 0, 1⟩ : ScoreRow)
          = score_key ⟨1, 0, 0, 0, 0, 0, 0, 0, 0, 0, 2⟩
      ∧ (⟨1, 0, 0, 0, 0, 0, 0, 0, 0, 0, 1⟩ : ScoreRow) ≠ ⟨1, 0, 0, 0, 0, 0, 0, 0, 0, 0, 2⟩)
    ∧ (persist_score [] ⟨1, 0, 0, 0, 0, 0, 0, 0, 0, 0, 1⟩
          = [] ++ [⟨1, 0, 0, 0, 0, 0, 0, 0, 0, 0, 1⟩]
      ∧ rescore_insert_score [⟨1, 0, 0, 0, 0, 0, 0, 0, 0, 0, 1⟩]
            ⟨2, 5, 0, 0, 0, 0, 0, 0, 0, 0, 3⟩
          = [⟨1, 0, 0, 0, 0, 0, 0, 0, 0, 0, 1⟩] ++ [⟨2, 5, 0, 0, 0, 0, 0, 0, 0, 0, 3⟩]
      ∧ (⟨1, 0, 0, 0, 0, 0, 0, 0, 0, 0, 1⟩ : ScoreRow)
          ∈ rescore_insert_score [⟨1, 0, 0, 0, 0, 0, 0, 0, 0, 0, 1⟩]
              ⟨2, 5, 0, 0, 0, 0, 0, 0, 0, 0, 3⟩
      ∧ (⟨1, 0, 0, 0, 0, 0, 0, 0, 0, 0, 1⟩ : ScoreRow)
          ∉ persist_score [⟨1, 0, 0, 0, 0, 0, 0, 0, 0, 0, 1⟩]
              ⟨1, 0, 0, 0, 0, 0, 0, 0, 0, 0, 2⟩) :=
  ⟨⟨by decide, by decide, by decide, by decide⟩,
   C6_scores_amended [] [⟨1, 0, 0, 0, 0, 0, 0, 0, 0, 0, 1⟩]
     [⟨1, 0, 0, 0, 0, 0, 0, 0, 0, 0, 1⟩]
     ⟨1, 0, 0, 0, 0, 0, 0, 0, 0, 0, 1⟩ ⟨2, 5, 0, 0, 0, 0, 0, 0, 0, 0, 3⟩
     ⟨1, 0, 0, 0, 0, 0, 0, 0, 0, 0, 2⟩
     ⟨1, 0, 0, 0, 0, 0, 0, 0, 0, 0, 1⟩ ⟨1, 0, 0, 0, 0, 0, 0, 0, 0, 0, 1⟩
     (by decide) (by decide) (by decide) (by decide) (by decide)⟩

/-- C7 counterexample: upserting an existing entity with a different alias
list replaces the stored aliases instead of unioning — the stored alias
`x` is lost, so "every alias present before the upsert is still present" is
false on the code. -/
theorem C7_alias_counterexample :
    upsert_entity [⟨"A", "person", none, ["x"], none⟩] "A" "person" ["y"] none none
      = [⟨"A", "person", none, ["y"], none⟩]
    ∧ "x" ∈ (⟨"A", "person", none, ["x"], none⟩ : EntityRow).aliases
    ∧ "x" ∉ (⟨"A", "person", none, ["y"], none⟩ : EntityRow).aliases :=
  ⟨by decide, by decide, by decide⟩

/-- C7 amended: the upsert never deletes an entity (the store never
shrinks, and every stored name survives), but on a name collision the
stored alias list is REPLACED by the supplied one — any row named `name`
in the post-upsert store carries exactly the supplied aliases, so aliases
not re-supplied are lost. -/
theorem C7_alias_amended (db : List EntityRow) (name etype : String)
    (aliases : List String) (wiki_id category : Option String)
    (e e2 : EntityRow) (he : e ∈ db)
    (he2 : e2 ∈ upsert_entity db name etype aliases wiki_id category)
    (hname : e2.name = name) :
    db.length ≤ (upsert_entity db name etype aliases wiki_id category).length
    ∧ (∃ e3 ∈ upsert_entity db name etype aliases wiki_id category, e3.name = e.name)
    ∧ e2.aliases = aliases := by
  by_cases h : db.any (fun x => x.name == name)
  · have hres : upsert_entity db name etype aliases wiki_id category
        = db.map (fun x =>
            if x.name == name then
              { x with aliases := aliases, category := category.orElse (fun _ => x.category) }
            else x) := by
      simp [upsert_entity, h]
    refine ⟨?_, ?_, ?_⟩
    · rw [hres, List.length_map]
    · rw [hres]
      refine ⟨_, List.mem_map_of_mem _ he, ?_⟩
      by_cases hen : e.name == name <;> simp [hen]
    · rw [hres] at he2
      obtain ⟨z, hz, hze⟩ := List.mem_map.mp he2
      by_cases hzn : z.name == name
      · rw [if_pos hzn] at hze
        rw [← hze]
      · rw [if_neg hzn] at hze
        rw [hze] at hzn
        simp [hname] at hzn
  · have hf : db.any (fun x => x.name == name) = false := by
      simpa using h
    have hres : upsert_entity db name etype aliases wiki_id category
        = db ++ [⟨name, etype, category, aliases, wiki_id⟩] := by
      simp [upsert_entity, hf]
    refine ⟨?_, ?_, ?_⟩
    · rw [hres, List.length_append]
      exact Nat.le_add_right _ _
    · rw [hres]
      exact ⟨e, List.mem_append_left _ he, rfl⟩
    · rw [hres] at he2
      rcases List.mem_append.mp he2 with hin | hnew
      · exfalso
        have hz := List.any_eq_false.mp hf e2 hin
        simp [hname] at hz
      · rw [List.mem_singleton] at hnew
        rw [hnew]

/-- Witness for C7 amended: the upserted store keeps its one entity, and
the updated row carries exactly the supplied aliases. -/
theorem C7_alias_amended_witness :
    ([⟨"A", "person", none, ["x"], none⟩] : List EntityRow).length
      ≤ (upsert_entity [⟨"A", "person", none, ["x"], none⟩] "A" "person" ["y"] none none).length
    ∧ (⟨"A", "person", none, ["y"], none⟩ : EntityRow).aliases = ["y"] :=
  ⟨(C7_alias_amended [⟨"A", "person", none, ["x"], none⟩] "A" "person" ["y"] none none
      ⟨"A", "person", none, ["x"], none⟩ ⟨"A", "person", none, ["y"], none⟩
      (by decide) (by decide) (by decide)).1,
   (C7_alias_amended [⟨"A", "person", none, ["x"], none⟩] "A" "person" ["y"] none none
      ⟨"A", "person", none, ["x"], none⟩ ⟨"A", "person", none, ["y"], none⟩
      (by decide) (by decide) (by decide)).2.2⟩

/-- C8 counterexample: with all six sub-source z-scores 0 and the latest
search window showing 5 hits from 0 unique authors, the code's component is
-1/4 (the capped penalty 5 is first normalized by /5, then weighted by
0.25), while the claim's formula — the capped penalty scaled by 0.25
directly — gives -5/4. -/
theorem C8_spam_scale_counterexample :
    tiktok_component 0 0 0 0 0 0 5 0 = -1/4
    ∧ tiktok_component_claim 0 0 0 0 0 0 5 0 = -5/4
    ∧ tiktok_component 0 0 0 0 0 0 5 0 ≠ tiktok_component_claim 0 0 0 0 0 0 5 0 := by
  refine ⟨?_, ?_, ?_⟩ <;>
    norm_num [tiktok_component, tiktok_component_claim, clip, min_def, max_def]

/-- C8 amended: the TikTok component is the weighted sum of the six
sub-source z-scores minus the spam penalty `max(0, hits − 2×authors)`
capped at 5, normalized by 5 and weighted by 0.25 — i.e. scaled by 1/20 in
total — with the result clamped to [-3, 3]. -/
theorem C8_spam_scale_amended (z1 z2 z3 z4 z5 z6 h a : ℚ) :
    tiktok_component z1 z2 z3 z4 z5 z6 h a
      = min (max ((3/10) * z1 + (3/20) * z2 + (3/20) * z3 + (1/5) * z4
          + (3/20) * z5 + (1/10) * z6 - (1/20) * min (max 0 (h - 2 * a)) 5) (-3)) 3 := by
  simp only [tiktok_component, clip]
  congr 1
  congr 1
  ring

end ETHeatmap
